import Mathlib

/-!
Verification of the `bufferbuffer` double-buffer container (`src/lib.rs`).

The Rust source defines `DoubleBuffer<T>` as two `std::cell::RefCell<T>`
slots (`first`, `second`) plus a boolean `switched`, with operations
`new`, `current`, `next` and `switch`.  We embed the runtime borrow
discipline of `RefCell` explicitly: each cell carries a borrow flag, a
shared borrow (`Ref`) increments a reader count, an exclusive borrow
(`RefMut`) requires the cell to be unborrowed, and a conflicting request
fails with the single error kind `BorrowConflict`.
-/

namespace BufferBuffer

/-- Runtime borrow flag of a `RefCell`: unborrowed, `n` outstanding shared
borrows (`n ≥ 1` whenever this constructor is in use), or one outstanding
exclusive borrow. -/
inductive BorrowFlag where
  | unused : BorrowFlag
  | sharedBy : Nat → BorrowFlag
  | exclusive : BorrowFlag
deriving DecidableEq

/-- The single error kind of the library: a requested view would violate the
per-slot shared/exclusive rule (a `RefCell` borrow failure). -/
inductive BorrowError where
  | BorrowConflict : BorrowError
deriving DecidableEq

/-- Models `std::cell::RefCell<T>`: a stored value together with its runtime
borrow flag. -/
structure Cell (T : Type) where
  value : T
  flag : BorrowFlag
deriving DecidableEq

/-- `RefCell::borrow`: acquire a shared view; fails iff an exclusive borrow
is outstanding. -/
def Cell.tryBorrow {T : Type} (c : Cell T) : Except BorrowError (Cell T) :=
  match c.flag with
  | .unused => .ok { c with flag := .sharedBy 1 }
  | .sharedBy n => .ok { c with flag := .sharedBy (n + 1) }
  | .exclusive => .error .BorrowConflict

/-- `RefCell::borrow_mut`: acquire an exclusive view; fails iff any borrow
is outstanding. -/
def Cell.tryBorrowMut {T : Type} (c : Cell T) : Except BorrowError (Cell T) :=
  match c.flag with
  | .unused => .ok { c with flag := .exclusive }
  | .sharedBy _ => .error .BorrowConflict
  | .exclusive => .error .BorrowConflict

/-- Dropping a `Ref` guard: one shared borrow is released. -/
def Cell.releaseShared {T : Type} (c : Cell T) : Cell T :=
  match c.flag with
  | .sharedBy 1 => { c with flag := .unused }
  | .sharedBy (n + 2) => { c with flag := .sharedBy (n + 1) }
  | _ => c

/-- Dropping a `RefMut` guard: the exclusive borrow is released. -/
def Cell.releaseMut {T : Type} (c : Cell T) : Cell T :=
  { c with flag := .unused }

/-- Identifies one of the two physical slots of the container
(`first` and `second` in the source). -/
inductive Slot where
  | first : Slot
  | second : Slot
deriving DecidableEq

/-- `DoubleBuffer<T>` from `src/lib.rs`: two `RefCell` slots and the
`switched` flag. -/
structure DoubleBuffer (T : Type) where
  first : Cell T
  second : Cell T
  switched : Bool
deriving DecidableEq

/-- `DoubleBuffer::new(current, next)`: `first` holds `current`, `second`
holds `next`, `switched = false`; both cells start unborrowed. -/
def DoubleBuffer.new {T : Type} (current next : T) : DoubleBuffer T :=
  { first := { value := current, flag := .unused }
    second := { value := next, flag := .unused }
    switched := false }

/-- Read a slot's cell. -/
def DoubleBuffer.getCell {T : Type} (b : DoubleBuffer T) : Slot → Cell T
  | .first => b.first
  | .second => b.second

/-- Replace a slot's cell. -/
def DoubleBuffer.setCell {T : Type} (b : DoubleBuffer T) : Slot → Cell T → DoubleBuffer T
  | .first, c => { b with first := c }
  | .second, c => { b with second := c }

/-- `DoubleBuffer::current`: a shared borrow of the logically current slot,
selected by `switched` (`false ⇒ first`, `true ⇒ second`).  On success it
returns the physical slot the `Ref` guard is bound to, together with the
container state in which that borrow is recorded. -/
def DoubleBuffer.current {T : Type} (b : DoubleBuffer T) :
    Except BorrowError (Slot × DoubleBuffer T) :=
  match b.switched with
  | false => b.first.tryBorrow.map (fun c => (Slot.first, { b with first := c }))
  | true => b.second.tryBorrow.map (fun c => (Slot.second, { b with second := c }))

/-- `DoubleBuffer::next`: an exclusive borrow of the logically next slot,
selected by `switched` (`false ⇒ second`, `true ⇒ first`).  On success it
returns the physical slot the `RefMut` guard is bound to, together with the
container state in which that borrow is recorded. -/
def DoubleBuffer.next {T : Type} (b : DoubleBuffer T) :
    Except BorrowError (Slot × DoubleBuffer T) :=
  match b.switched with
  | false => b.second.tryBorrowMut.map (fun c => (Slot.second, { b with second := c }))
  | true => b.first.tryBorrowMut.map (fun c => (Slot.first, { b with first := c }))

/-- `DoubleBuffer::switch`: flips `switched`. -/
def DoubleBuffer.switch {T : Type} (b : DoubleBuffer T) : DoubleBuffer T :=
  { b with switched := !b.switched }

/-- Dereferencing a view bound to slot `s`: read the stored value. -/
def DoubleBuffer.readVia {T : Type} (b : DoubleBuffer T) (s : Slot) : T :=
  (b.getCell s).value

/-- Writing through a `RefMut` view bound to slot `s`: apply `f` to the
stored value of that physical slot. -/
def DoubleBuffer.writeVia {T : Type} (b : DoubleBuffer T) (s : Slot) (f : T → T) :
    DoubleBuffer T :=
  b.setCell s { b.getCell s with value := f (b.getCell s).value }

/-- Dropping a `Ref` guard bound to slot `s`. -/
def DoubleBuffer.dropShared {T : Type} (b : DoubleBuffer T) (s : Slot) : DoubleBuffer T :=
  b.setCell s (b.getCell s).releaseShared

/-- Dropping a `RefMut` guard bound to slot `s`. -/
def DoubleBuffer.dropMut {T : Type} (b : DoubleBuffer T) (s : Slot) : DoubleBuffer T :=
  b.setCell s (b.getCell s).releaseMut

/-- The slot `current()` selects, as a function of `switched`. -/
def DoubleBuffer.currentSlot {T : Type} (b : DoubleBuffer T) : Slot :=
  match b.switched with
  | false => .first
  | true => .second

/-- The slot `next()` selects, as a function of `switched`. -/
def DoubleBuffer.nextSlot {T : Type} (b : DoubleBuffer T) : Slot :=
  match b.switched with
  | false => .second
  | true => .first

/-- The value stored in the logically current slot. -/
def DoubleBuffer.currentVal {T : Type} (b : DoubleBuffer T) : T :=
  (b.getCell b.currentSlot).value

/-- The value stored in the logically next slot. -/
def DoubleBuffer.nextVal {T : Type} (b : DoubleBuffer T) : T :=
  (b.getCell b.nextSlot).value

/-- The idiom `*buf.current()` from the tests: borrow the current slot,
read through the guard, and drop the guard at the end of the statement. -/
def DoubleBuffer.readCurrent {T : Type} (b : DoubleBuffer T) : Except BorrowError T :=
  b.current.map (fun p => p.2.readVia p.1)

/-- The idiom `*buf.next() += v` (or any single-statement mutation through
`next()`): borrow mutably, apply `f` through the guard, drop the guard. -/
def DoubleBuffer.modifyNext {T : Type} (b : DoubleBuffer T) (f : T → T) :
    Except BorrowError (DoubleBuffer T) :=
  b.next.map (fun p => (p.2.writeVia p.1 f).dropMut p.1)

/-- A sequence of single-statement writes through `next()`. -/
def applyNextWrites {T : Type} : DoubleBuffer T → List (T → T) →
    Except BorrowError (DoubleBuffer T)
  | b, [] => .ok b
  | b, f :: fs =>
    match b.modifyNext f with
    | .ok b2 => applyNextWrites b2 fs
    | .error e => .error e

/-! ### Operation traces

A statement-level operation language over the container, used to state the
error-policy and determinism claims: one tick-level step either reads the
current slot (`*buf.current()`), mutates the next slot through a guard that
is dropped at the end of the statement (`*buf.next() ...`), or switches. -/

/-- One statement-level operation on the container. -/
inductive Op (T : Type) where
  | readCur : Op T
  | writeNext : (T → T) → Op T
  | doSwitch : Op T

/-- Observable outcome of one operation: a value read, plain success, or a
`BorrowConflict` failure. -/
inductive Outcome (T : Type) where
  | val : T → Outcome T
  | unit : Outcome T
  | conflict : Outcome T
deriving DecidableEq

/-- Execute one statement-level operation, returning its observable outcome
and the successor container state. -/
def stepFn {T : Type} (b : DoubleBuffer T) : Op T → Outcome T × DoubleBuffer T
  | .readCur =>
    match b.current with
    | .ok (s, b1) => (.val (b1.readVia s), b1.dropShared s)
    | .error _ => (.conflict, b)
  | .writeNext f =>
    match b.next with
    | .ok (s, b1) => (.unit, (b1.writeVia s f).dropMut s)
    | .error _ => (.conflict, b)
  | .doSwitch => (.unit, b.switch)

/-- Small-step relation mirroring `stepFn`, one constructor per code path of
the source operations. -/
inductive Step {T : Type} : DoubleBuffer T → Op T → Outcome T → DoubleBuffer T → Prop where
  | readOk (b : DoubleBuffer T) (s : Slot) (b1 : DoubleBuffer T)
      (h : b.current = .ok (s, b1)) :
      Step b .readCur (.val (b1.readVia s)) (b1.dropShared s)
  | readConflict (b : DoubleBuffer T) (e : BorrowError) (h : b.current = .error e) :
      Step b .readCur .conflict b
  | writeOk (b : DoubleBuffer T) (f : T → T) (s : Slot) (b1 : DoubleBuffer T)
      (h : b.next = .ok (s, b1)) :
      Step b (.writeNext f) .unit ((b1.writeVia s f).dropMut s)
  | writeConflict (b : DoubleBuffer T) (f : T → T) (e : BorrowError) (h : b.next = .error e) :
      Step b (.writeNext f) .conflict b
  | switchStep (b : DoubleBuffer T) : Step b .doSwitch .unit b.switch

/-! ### Helper lemmas -/

/-- A single write through `next()` on a fully released buffer with
`switched = false`: the second slot receives `f` of its value, everything
else is untouched and the guard is released. -/
lemma applyNextWrites_false {T : Type} (v1 v2 : T) (fs : List (T → T)) :
    applyNextWrites ⟨⟨v1, .unused⟩, ⟨v2, .unused⟩, false⟩ fs =
      .ok ⟨⟨v1, .unused⟩, ⟨fs.foldl (fun v f => f v) v2, .unused⟩, false⟩ := by
  induction fs generalizing v2 with
  | nil => rfl
  | cons f fs ih => exact ih (f v2)

/-- Counterpart of `applyNextWrites_false` for `switched = true`. -/
lemma applyNextWrites_true {T : Type} (v1 v2 : T) (fs : List (T → T)) :
    applyNextWrites ⟨⟨v1, .unused⟩, ⟨v2, .unused⟩, true⟩ fs =
      .ok ⟨⟨fs.foldl (fun v f => f v) v1, .unused⟩, ⟨v2, .unused⟩, true⟩ := by
  induction fs generalizing v1 with
  | nil => rfl
  | cons f fs ih => exact ih (f v1)

/-! ### Claims -/

/-- C1. Role isolation: from any fully released buffer state, any sequence
of writes through `next()` succeeds, and after one `switch()` the value
observed through `current()` is exactly the fold of those writes over the
value the next slot held before — nothing else; a second `switch()` makes
`current()` observe the original current value again. -/
theorem C1_role_isolation {T : Type} (b : DoubleBuffer T) (fs : List (T → T))
    (h1 : b.first.flag = .unused) (h2 : b.second.flag = .unused) :
    ∃ b2, applyNextWrites b fs = .ok b2 ∧
      b2.switch.readCurrent = .ok (fs.foldl (fun v f => f v) b.nextVal) ∧
      b2.switch.switch.readCurrent = .ok b.currentVal := by
  obtain ⟨⟨v1, g1⟩, ⟨v2, g2⟩, sw⟩ := b
  simp only at h1 h2
  subst h1 h2
  cases sw with
  | false => exact ⟨_, applyNextWrites_false v1 v2 fs, rfl, rfl⟩
  | true => exact ⟨_, applyNextWrites_true v1 v2 fs, rfl, rfl⟩

/-- Witness for C1: the integer scenario `new(0, 0)`, add 10 through
`next()`, switch, read 10; switch again, read 0. -/
theorem C1_role_isolation_witness :
    ∃ b2, applyNextWrites (DoubleBuffer.new (0 : Int) 0) [fun v => v + 10] = .ok b2 ∧
      b2.switch.readCurrent = .ok 10 ∧
      b2.switch.switch.readCurrent = .ok 0 :=
  C1_role_isolation (DoubleBuffer.new (0 : Int) 0) [fun v => v + 10] rfl rfl

/-- C4. Frame property of `switch()`: it negates `switched` and leaves both
cells — values and borrow flags — unchanged. -/
theorem C4_switch_frame {T : Type} (b : DoubleBuffer T) :
    b.switch.first = b.first ∧ b.switch.second = b.second ∧
      b.switch.switched = !b.switched :=
  ⟨rfl, rfl, rfl⟩

/-- C5. Double switch is identity: two successive `switch()` calls restore
the buffer state exactly, so the current/next role mapping toggles back. -/
theorem C5_double_switch_identity {T : Type} (b : DoubleBuffer T) :
    b.switch.switch = b := by
  obtain ⟨c1, c2, sw⟩ := b
  simp [DoubleBuffer.switch]

/-- C2. Construction and slot selection: `new(c, n)` puts `c` in the first
slot (the spec's slot_a), `n` in the second slot (slot_b), with
`switched = false` (the spec's role_flipped) and both cells unborrowed;
and in every state `current()`/`next()` expose first/second when
`switched = false` and second/first when `switched = true`, both through
the role maps and through the slot a successful accessor call binds to. -/
theorem C2_construction_and_selection {T : Type} (c n : T) (b : DoubleBuffer T) :
    DoubleBuffer.new c n = ⟨⟨c, .unused⟩, ⟨n, .unused⟩, false⟩ ∧
    (b.switched = false → b.currentSlot = .first ∧ b.nextSlot = .second) ∧
    (b.switched = true → b.currentSlot = .second ∧ b.nextSlot = .first) ∧
    (∀ s b1, b.current = .ok (s, b1) → s = b.currentSlot ∧ b1.readVia s = b.currentVal) ∧
    (∀ s b1, b.next = .ok (s, b1) → s = b.nextSlot ∧ b1.readVia s = b.nextVal) := by
  obtain ⟨⟨v1, g1⟩, ⟨v2, g2⟩, sw⟩ := b
  refine ⟨rfl, ?_, ?_, ?_, ?_⟩
  · intro h
    simp only at h
    subst h
    exact ⟨rfl, rfl⟩
  · intro h
    simp only at h
    subst h
    exact ⟨rfl, rfl⟩
  · intro s b1 h
    cases sw <;> [cases g1; cases g2] <;>
      simp [DoubleBuffer.current, Cell.tryBorrow, Except.map] at h <;>
      obtain ⟨hs, hb⟩ := h <;> subst hs <;> subst hb <;> exact ⟨rfl, rfl⟩
  · intro s b1 h
    cases sw <;> [cases g2; cases g1] <;>
      simp [DoubleBuffer.next, Cell.tryBorrowMut, Except.map] at h <;>
      obtain ⟨hs, hb⟩ := h <;> subst hs <;> subst hb <;> exact ⟨rfl, rfl⟩

/-- Witness for C2: with `new(0, 1)` over the integers, the fields and the
role maps in both flag states, and a concrete successful `current()`. -/
theorem C2_construction_and_selection_witness :
    DoubleBuffer.new (0 : Int) 1 = ⟨⟨0, .unused⟩, ⟨1, .unused⟩, false⟩ ∧
    (DoubleBuffer.new (0 : Int) 1).currentSlot = .first ∧
    (DoubleBuffer.new (0 : Int) 1).switch.currentSlot = .second ∧
    ((DoubleBuffer.new (0 : Int) 1).readVia Slot.first = 0) := by
  obtain ⟨hnew, hfalse, -, -, -⟩ :=
    C2_construction_and_selection (0 : Int) 1 (DoubleBuffer.new 0 1)
  obtain ⟨-, -, htrue, -, -⟩ :=
    C2_construction_and_selection (0 : Int) 1 (DoubleBuffer.new 0 1).switch
  obtain ⟨-, -, -, hcur, -⟩ :=
    C2_construction_and_selection (0 : Int) 1 (DoubleBuffer.new 0 1)
  exact ⟨hnew, (hfalse rfl).1, (htrue rfl).1, ((hcur Slot.first _ rfl).2)⟩

/-- C3. No implicit copy: from any fully released state, acquiring the
`next()` view and applying any mutation `f` through it leaves the value
observed through `current()` unchanged (even while the exclusive view is
still outstanding), and after releasing the guard the current slot's cell
is bit-for-bit unchanged while the next slot holds exactly `f` of its old
value — no slot content was copied into the other. -/
theorem C3_no_implicit_copy {T : Type} (b : DoubleBuffer T) (f : T → T)
    (h1 : b.first.flag = .unused) (h2 : b.second.flag = .unused) :
    ∃ s b1, b.next = .ok (s, b1) ∧
      (b1.writeVia s f).readCurrent = .ok b.currentVal ∧
      ((b1.writeVia s f).dropMut s).getCell b.currentSlot = b.getCell b.currentSlot ∧
      ((b1.writeVia s f).dropMut s).currentVal = b.currentVal ∧
      ((b1.writeVia s f).dropMut s).nextVal = f b.nextVal := by
  obtain ⟨⟨v1, g1⟩, ⟨v2, g2⟩, sw⟩ := b
  simp only at h1 h2
  subst h1 h2
  cases sw with
  | false => exact ⟨.second, ⟨⟨v1, .unused⟩, ⟨v2, .exclusive⟩, false⟩, rfl, rfl, rfl, rfl, rfl⟩
  | true => exact ⟨.first, ⟨⟨v1, .exclusive⟩, ⟨v2, .unused⟩, true⟩, rfl, rfl, rfl, rfl, rfl⟩

/-- Witness for C3: on `new(0, 0)` over the integers, adding 10 through the
`next()` view leaves `current()` reading 0 and makes the next slot 10. -/
theorem C3_no_implicit_copy_witness :
    ∃ s b1, (DoubleBuffer.new (0 : Int) 0).next = .ok (s, b1) ∧
      (b1.writeVia s (fun v => v + 10)).readCurrent = .ok 0 ∧
      ((b1.writeVia s (fun v => v + 10)).dropMut s).getCell
          (DoubleBuffer.new (0 : Int) 0).currentSlot =
        (DoubleBuffer.new (0 : Int) 0).getCell (DoubleBuffer.new (0 : Int) 0).currentSlot ∧
      ((b1.writeVia s (fun v => v + 10)).dropMut s).currentVal = 0 ∧
      ((b1.writeVia s (fun v => v + 10)).dropMut s).nextVal = 10 :=
  C3_no_implicit_copy (DoubleBuffer.new (0 : Int) 0) (fun v => v + 10) rfl rfl

/-- C6. Independent slot access: from any fully released state, acquiring
`current()` then `next()` both succeed (no `BorrowConflict`), and likewise
acquiring `next()` then `current()`; in each order the two views are bound
to distinct physical slots. -/
theorem C6_independent_slot_access {T : Type} (b : DoubleBuffer T)
    (h1 : b.first.flag = .unused) (h2 : b.second.flag = .unused) :
    (∃ s1 b1 s2 b2, b.current = .ok (s1, b1) ∧ b1.next = .ok (s2, b2) ∧ s1 ≠ s2) ∧
    (∃ s1 b1 s2 b2, b.next = .ok (s1, b1) ∧ b1.current = .ok (s2, b2) ∧ s1 ≠ s2) := by
  obtain ⟨⟨v1, g1⟩, ⟨v2, g2⟩, sw⟩ := b
  simp only at h1 h2
  subst h1 h2
  cases sw with
  | false =>
    exact ⟨⟨.first, _, .second, _, rfl, rfl, by simp⟩,
      ⟨.second, _, .first, _, rfl, rfl, by simp⟩⟩
  | true =>
    exact ⟨⟨.second, _, .first, _, rfl, rfl, by simp⟩,
      ⟨.first, _, .second, _, rfl, rfl, by simp⟩⟩

/-- Witness for C6: both acquisition orders succeed on `new(0, 0)`. -/
theorem C6_independent_slot_access_witness :
    (∃ s1 b1 s2 b2, (DoubleBuffer.new (0 : Int) 0).current = .ok (s1, b1) ∧
      b1.next = .ok (s2, b2) ∧ s1 ≠ s2) ∧
    (∃ s1 b1 s2 b2, (DoubleBuffer.new (0 : Int) 0).next = .ok (s1, b1) ∧
      b1.current = .ok (s2, b2) ∧ s1 ≠ s2) :=
  C6_independent_slot_access (DoubleBuffer.new (0 : Int) 0) rfl rfl

/-- C7. Same-slot conflict detection: from any fully released state, after
acquiring the exclusive `next()` view, a second `next()` call fails with
`BorrowConflict`, and requesting a shared view into that same physical slot
(`current()` right after a `switch()`, which retargets it at that slot)
also fails with `BorrowConflict`. -/
theorem C7_same_slot_conflict {T : Type} (b : DoubleBuffer T)
    (h1 : b.first.flag = .unused) (h2 : b.second.flag = .unused) :
    ∃ s b1, b.next = .ok (s, b1) ∧
      b1.next = .error .BorrowConflict ∧
      b1.switch.currentSlot = s ∧
      b1.switch.current = .error .BorrowConflict := by
  obtain ⟨⟨v1, g1⟩, ⟨v2, g2⟩, sw⟩ := b
  simp only at h1 h2
  subst h1 h2
  cases sw with
  | false => exact ⟨.second, _, rfl, rfl, rfl, rfl⟩
  | true => exact ⟨.first, _, rfl, rfl, rfl, rfl⟩

/-- Witness for C7: on `new(0, 0)`, a second `next()` and a post-switch
`current()` both report the conflict. -/
theorem C7_same_slot_conflict_witness :
    ∃ s b1, (DoubleBuffer.new (0 : Int) 0).next = .ok (s, b1) ∧
      b1.next = .error .BorrowConflict ∧
      b1.switch.currentSlot = s ∧
      b1.switch.current = .error .BorrowConflict :=
  C7_same_slot_conflict (DoubleBuffer.new (0 : Int) 0) rfl rfl

/-- C8. Failures occur only at accessor calls: `new` always constructs a
definite buffer (no validation, no failure path), a `switch` step always
succeeds with outcome `unit`, and any step whose outcome is `conflict` is a
`current()` read or a `next()` write — never a switch or a construction. -/
theorem C8_failures_only_at_accessors {T : Type} :
    (∀ c n : T, DoubleBuffer.new c n = ⟨⟨c, .unused⟩, ⟨n, .unused⟩, false⟩) ∧
    (∀ b : DoubleBuffer T, stepFn b .doSwitch = (.unit, b.switch)) ∧
    (∀ (b b2 : DoubleBuffer T) (op : Op T), stepFn b op = (.conflict, b2) →
      op = .readCur ∨ ∃ f, op = .writeNext f) := by
  refine ⟨fun c n => rfl, fun b => rfl, ?_⟩
  intro b b2 op h
  cases op with
  | readCur => exact Or.inl rfl
  | writeNext f => exact Or.inr ⟨f, rfl⟩
  | doSwitch => simp [stepFn] at h

/-- Witness for C8: a concrete conflicting write step is classified as an
accessor failure, and a concrete switch step succeeds. -/
theorem C8_failures_only_at_accessors_witness :
    (Op.writeNext (fun v : Int => v) = Op.readCur ∨
      ∃ f, Op.writeNext (fun v : Int => v) = Op.writeNext f) ∧
    stepFn (DoubleBuffer.new (0 : Int) 0) .doSwitch =
      (.unit, (DoubleBuffer.new (0 : Int) 0).switch) := by
  obtain ⟨-, hswitch, hconflict⟩ := @C8_failures_only_at_accessors Int
  exact ⟨hconflict ⟨⟨0, .unused⟩, ⟨0, .exclusive⟩, false⟩ _ _ rfl, hswitch _⟩

/-- C9. Stale contents after switch: immediately after `switch()`, the
`next()` role targets the physical slot that was logically current before,
with its contents intact — nothing is cleared, reset or overwritten — and a
view obtained from `next()` then is bound to that slot and reads the old
current value. -/
theorem C9_stale_after_switch {T : Type} (b : DoubleBuffer T) :
    b.switch.nextSlot = b.currentSlot ∧
    b.switch.nextVal = b.currentVal ∧
    (∀ s b1, b.switch.next = .ok (s, b1) → s = b.currentSlot ∧ b1.readVia s = b.currentVal) := by
  obtain ⟨⟨v1, g1⟩, ⟨v2, g2⟩, sw⟩ := b
  cases sw with
  | false =>
    refine ⟨rfl, rfl, ?_⟩
    intro s b1 h
    cases g1 <;> simp [DoubleBuffer.switch, DoubleBuffer.next, Cell.tryBorrowMut,
      Except.map] at h
    obtain ⟨hs, hb⟩ := h
    subst hs
    subst hb
    exact ⟨rfl, rfl⟩
  | true =>
    refine ⟨rfl, rfl, ?_⟩
    intro s b1 h
    cases g2 <;> simp [DoubleBuffer.switch, DoubleBuffer.next, Cell.tryBorrowMut,
      Except.map] at h
    obtain ⟨hs, hb⟩ := h
    subst hs
    subst hb
    exact ⟨rfl, rfl⟩

/-- Witness for C9: on `new(10, 20)`, after one switch the `next()` view is
bound to the first slot and still reads 10. -/
theorem C9_stale_after_switch_witness :
    (DoubleBuffer.new (10 : Int) 20).switch.nextSlot =
      (DoubleBuffer.new (10 : Int) 20).currentSlot ∧
    (DoubleBuffer.new (10 : Int) 20).switch.nextVal = 10 ∧
    (Slot.first = (DoubleBuffer.new (10 : Int) 20).currentSlot ∧
      DoubleBuffer.readVia (⟨⟨(10 : Int), .exclusive⟩, ⟨20, .unused⟩, true⟩ : DoubleBuffer Int)
        Slot.first = 10) := by
  obtain ⟨hslot, hval, hview⟩ := C9_stale_after_switch (DoubleBuffer.new (10 : Int) 20)
  exact ⟨hslot, hval, hview Slot.first ⟨⟨(10 : Int), .exclusive⟩, ⟨20, .unused⟩, true⟩ rfl⟩

/-- C10. Determinism: the step relation of the container is a function of
the state and the operation — two steps from the same state with the same
operation produce the same observable outcome and the same successor state,
so identical runs observe identical values and identical
success/`BorrowConflict` results. -/
theorem C10_determinism {T : Type} (b b1 b2 : DoubleBuffer T) (op : Op T)
    (o1 o2 : Outcome T) (h1 : Step b op o1 b1) (h2 : Step b op o2 b2) :
    o1 = o2 ∧ b1 = b2 := by
  cases h1 <;> cases h2 <;> simp_all

/-- Witness for C10: two switch steps from `new(0, 0)` agree. -/
theorem C10_determinism_witness :
    (Outcome.unit : Outcome Int) = Outcome.unit ∧
      (DoubleBuffer.new (0 : Int) 0).switch = (DoubleBuffer.new (0 : Int) 0).switch :=
  C10_determinism _ _ _ _ _ _ (Step.switchStep (DoubleBuffer.new (0 : Int) 0))
    (Step.switchStep (DoubleBuffer.new (0 : Int) 0))

end BufferBuffer
